import Mathlib

/-!
Shallow embedding of `src/core/src/pos/consensus/network_interface.rs`
(the `ConsensusNetworkSender` dispatch and RPC-correlation layer).

Identifiers (`PeerId`, `H256`, `NodeId`, message payloads, RPC responses) are
opaque at this layer and are modelled as `Nat`.  External collaborators
(`NetworkService.with_context`, the request manager, the oneshot channel, the
loopback message queue) are modelled by their observable behaviour: the
environment carries the success of each hand-off and the eventual outcome of
each RPC completion slot, and every operation returns, besides its result and
the (unchanged) sender state, the list of observable events it produced
(peer-table lookups, transport hand-offs, warning logs, loopback enqueues,
RPC issues).
-/

namespace NetworkInterface

/-- `diem_types::PeerId` (an account address), opaque here. -/
abbrev PeerId := Nat

/-- `diem_types::account_address::AccountAddress`, opaque here. -/
abbrev AccountAddress := Nat

/-- `cfx_types::H256`, the key type of the peer table, opaque here. -/
abbrev H256 := Nat

/-- `network::node_table::NodeId`, the network-layer peer handle, opaque here. -/
abbrev NodeId := Nat

/-- A serialized `&dyn Message` payload, opaque at this layer. -/
abbrev Message := Nat

/-- A `Box<dyn RpcResponse>`, opaque at this layer. -/
abbrev RpcResponse := Nat

/-- A protocol identifier.  The source tags every hand-off with a protocol id
taken from `crate::pos::protocol`. -/
abbrev ProtocolId := Nat

/-- `HSB_PROTOCOL_ID`: the one protocol identifier this file uses, a constant
defined in `crate::pos::protocol`.  Its concrete value is irrelevant here;
what matters is that it is a single fixed constant. -/
def HSB_PROTOCOL_ID : ProtocolId := 0

/-- `H256::from_slice(recipient.to_vec().as_slice())`: the recipient address
bytes re-encoded as the peer-table key.  An injective re-encoding, modelled as
the identity on the opaque representation. -/
def peerHash (recipient : PeerId) : H256 := recipient

/-- The `ConsensusMsg` enum: the closed set of consensus envelope variants.
Each payload is opaque at this layer. -/
inductive ConsensusMsg where
  | BlockRetrievalRequest (payload : Nat)
  | BlockRetrievalResponse (payload : Nat)
  | EpochRetrievalRequest (payload : Nat)
  | ProposalMsg (payload : Nat)
  | SyncInfo (payload : Nat)
  | EpochChangeProof (payload : Nat)
  | VoteMsg (payload : Nat)
deriving DecidableEq, Repr

/-- The variant tag of a `ConsensusMsg`: the codomain of
`std::mem::discriminant` on `ConsensusMsg`. -/
inductive MsgKind where
  | BlockRetrievalRequest
  | BlockRetrievalResponse
  | EpochRetrievalRequest
  | ProposalMsg
  | SyncInfo
  | EpochChangeProof
  | VoteMsg
deriving DecidableEq, Repr

/-- `std::mem::discriminant(&msg)`: the structurally derived variant tag,
independent of the payload. -/
def discriminant : ConsensusMsg → MsgKind
  | .BlockRetrievalRequest _ => .BlockRetrievalRequest
  | .BlockRetrievalResponse _ => .BlockRetrievalResponse
  | .EpochRetrievalRequest _ => .EpochRetrievalRequest
  | .ProposalMsg _ => .ProposalMsg
  | .SyncInfo _ => .SyncInfo
  | .EpochChangeProof _ => .EpochChangeProof
  | .VoteMsg _ => .VoteMsg

/-- Whether two envelopes are the same variant, defined structurally by
double case analysis (not via `discriminant`, so that theorems relating the
two are not circular). -/
def sameVariant : ConsensusMsg → ConsensusMsg → Bool
  | .BlockRetrievalRequest _, .BlockRetrievalRequest _ => true
  | .BlockRetrievalResponse _, .BlockRetrievalResponse _ => true
  | .EpochRetrievalRequest _, .EpochRetrievalRequest _ => true
  | .ProposalMsg _, .ProposalMsg _ => true
  | .SyncInfo _, .SyncInfo _ => true
  | .EpochChangeProof _, .EpochChangeProof _ => true
  | .VoteMsg _, .VoteMsg _ => true
  | _, _ => false

/-- The loopback queue key `(self_author, discriminant(&msg))` used by
`send_self_msg`. -/
def loopbackKey (a : AccountAddress) (m : ConsensusMsg) : AccountAddress × MsgKind :=
  (a, discriminant m)

/-- A peer entry of the `protocol_handler.peers` table.  In the source the
entry is an `RwLock`-guarded peer; `peer.read().get_id()` projects its node
id. -/
structure Peer where
  id : NodeId
deriving DecidableEq, Repr

/-- `peer.read().get_id()`. -/
def Peer.get_id (p : Peer) : NodeId := p.id

/-- Observable events of one sender operation. -/
inductive Event where
  /-- A read of the peer table at the given key, and whether it resolved. -/
  | lookup (addr : H256) (found : Bool)
  /-- A direct-send transport hand-off attempt (`msg.send(io, peer_id)` under
  `with_context`), and whether the combined hand-off succeeded. -/
  | handoff (protocol : ProtocolId) (peer : NodeId) (ok : Bool)
  /-- The `warn!("Error sending message!")` diagnostic. -/
  | warnLog
  /-- A loopback enqueue of `(author, msg)` under `key`. -/
  | enqueue (key : AccountAddress × MsgKind) (author : AccountAddress) (msg : ConsensusMsg)
  /-- A successful hand-off of an RPC request to the request manager
  (`request_with_delay` under `with_context`). -/
  | rpcIssue (protocol : ProtocolId) (recipient : Option NodeId)
deriving DecidableEq, Repr

/-- The network service collaborator, modelled by the success of each kind of
hand-off performed through `with_context`:
`directSendOk` is whether `with_context(.., pid, |io| msg.send(io, peer))`
succeeds, `rpcDispatchOk` whether
`with_context(.., pid, |io| request_manager.request_with_delay(..))`
succeeds. -/
structure NetworkService where
  directSendOk : ProtocolId → NodeId → Message → Bool
  rpcDispatchOk : ProtocolId → Option NodeId → Bool

/-- The `network_task` owned by the protocol handler, holding the loopback
queue `consensus_messages_tx`; modelled by whether the queue's receiving end
is still up. -/
structure NetworkTask where
  queueAlive : Bool

/-- The `HotStuffSynchronizationProtocol` collaborator: the peer lookup table
(an association list keyed by `H256`) and the network task. -/
structure HotStuffSynchronizationProtocol where
  peers : List (H256 × Peer)
  network_task : NetworkTask

/-- The `ConsensusNetworkSender`: a network service handle and a protocol
handler. -/
structure ConsensusNetworkSender where
  network : NetworkService
  protocol_handler : HotStuffSynchronizationProtocol

/-- `self.protocol_handler.peers.get(&peer_hash)`: read-only lookup in the
peer table. -/
def peersGet (peers : List (H256 × Peer)) (h : H256) : Option Peer :=
  (peers.find? (fun e => e.1 == h)).map (fun e => e.2)

/-- The error type of `send_to` and friends (`crate::message::NetworkError`);
its structure is irrelevant at this layer. -/
inductive NetworkError where
  | sendError
deriving DecidableEq, Repr

/-- `send_message_with_peer_id`: hand the message to the transport under
`HSB_PROTOCOL_ID`; on failure log a warning (`warn!("Error sending
message!")`) and swallow the error — the function returns `()` in the source,
so here just the event trace. -/
def send_message_with_peer_id (s : ConsensusNetworkSender) (peer_id : NodeId)
    (msg : Message) : List Event :=
  if s.network.directSendOk HSB_PROTOCOL_ID peer_id msg then
    [Event.handoff HSB_PROTOCOL_ID peer_id true]
  else
    [Event.handoff HSB_PROTOCOL_ID peer_id false, Event.warnLog]

/-- `ConsensusNetworkSender::send_to`: hash the recipient address, look it up
in the peer table; on a hit, hand the message off via
`send_message_with_peer_id`; either way return `Ok(())`.  Result, event
trace and (unchanged) sender state. -/
def send_to (s : ConsensusNetworkSender) (recipient : PeerId) (msg : Message) :
    Except NetworkError Unit × List Event × ConsensusNetworkSender :=
  match peersGet s.protocol_handler.peers (peerHash recipient) with
  | some peer =>
      (Except.ok (),
        Event.lookup (peerHash recipient) true ::
          send_message_with_peer_id s peer.get_id msg,
        s)
  | none =>
      (Except.ok (), [Event.lookup (peerHash recipient) false], s)

/-- `ConsensusNetworkSender::send_to_many`: the source's `for` loop, whose
body is exactly the body of `send_to`, applied to each recipient in turn;
returns `Ok(())` after the loop. -/
def send_to_many (s : ConsensusNetworkSender) (recipients : List PeerId)
    (msg : Message) :
    Except NetworkError Unit × List Event × ConsensusNetworkSender :=
  match recipients with
  | [] => (Except.ok (), [], s)
  | peer_address :: rest =>
      (Except.ok (),
        (match peersGet s.protocol_handler.peers (peerHash peer_address) with
          | some peer =>
              Event.lookup (peerHash peer_address) true ::
                send_message_with_peer_id s peer.get_id msg
          | none => [Event.lookup (peerHash peer_address) false]) ++
          (send_to_many s rest msg).2.1,
        s)

/-- The error type of `send_rpc` (`crate::sync::Error`):
`sendRpcFailed` is the `format_err!("send rpc failed")` produced when the
`with_context` hand-off fails; `canceled` is the error `res_rx.await?`
produces when the oneshot sender is dropped unfulfilled; `collaborator e` is
an error value the request manager itself fulfilled the slot with (timeout,
decode failure, reported delivery failure). -/
inductive RpcError where
  | sendRpcFailed
  | canceled
  | collaborator (e : Nat)
deriving DecidableEq, Repr

/-- The eventual fate of one RPC completion slot (the `oneshot` channel's
sender `res_tx`) in the hands of the request-manager collaborator: it is
either fulfilled exactly once with a typed result, or dropped without ever
being fulfilled.  Rust ownership leaves no third option short of a process
leak. -/
inductive SlotOutcome where
  | fulfilled (r : Except RpcError RpcResponse)
  | dropped
deriving Repr

/-- `res_rx.await?`: awaiting the oneshot receiver yields the fulfilled value,
or — when the sender was dropped unfulfilled — a `Canceled` error which `?`
converts into the function's error type.  In neither case does the caller
stay suspended forever. -/
def awaitSlot : SlotOutcome → Except RpcError RpcResponse
  | .fulfilled r => r
  | .dropped => .error .canceled

/-- `ConsensusNetworkSender::send_rpc`: create a oneshot completion slot, hand
the request (with the slot attached) to the request manager under
`HSB_PROTOCOL_ID` via `with_context`; if that hand-off fails, return the
`format_err!("send rpc failed")` error immediately; otherwise await the slot.
`outcome` is the eventual fate of the slot, determined by the external
request manager. -/
def send_rpc (s : ConsensusNetworkSender) (recipient : Option NodeId)
    (outcome : SlotOutcome) :
    Except RpcError RpcResponse × List Event × ConsensusNetworkSender :=
  if s.network.rpcDispatchOk HSB_PROTOCOL_ID recipient then
    (awaitSlot outcome, [Event.rpcIssue HSB_PROTOCOL_ID recipient], s)
  else
    (Except.error RpcError.sendRpcFailed, [], s)

/-- The error type of the loopback queue push. -/
inductive PushError where
  | queueClosed
deriving DecidableEq, Repr

/-- Modelled from the spec: the loopback queue push primitive
(`channel::message_queues` — `consensus_messages_tx.push(key, value)` — whose
code is part of this repository but not under `src/`).  Per the spec (§4.4,
§7): the enqueue under the given key succeeds while the destination queue is
up, and reports a delivery error, rather than silently dropping the message,
exactly when the queue has been torn down. -/
def queuePush (alive : Bool) (key : AccountAddress × MsgKind)
    (value : AccountAddress × ConsensusMsg) : Except PushError Unit × List Event :=
  if alive then
    (Except.ok (), [Event.enqueue key value.1 value.2])
  else
    (Except.error PushError.queueClosed, [])

/-- `ConsensusNetworkSender::send_self_msg`: push
`(self_author, msg)` onto the loopback queue under the key
`(self_author, discriminant(&msg))`, returning the push's own result; no
peer-table lookup and no transport hand-off occurs. -/
def send_self_msg (s : ConsensusNetworkSender) (self_author : AccountAddress)
    (msg : ConsensusMsg) :
    Except PushError Unit × List Event × ConsensusNetworkSender :=
  ((queuePush s.protocol_handler.network_task.queueAlive
      (self_author, discriminant msg) (self_author, msg)).1,
    (queuePush s.protocol_handler.network_task.queueAlive
      (self_author, discriminant msg) (self_author, msg)).2,
    s)

/-! Concrete environments used by counterexamples and witnesses. -/

/-- A network service on which every hand-off fails. -/
def failNet : NetworkService :=
  { directSendOk := fun _ _ _ => false, rpcDispatchOk := fun _ _ => false }

/-- A network service on which every hand-off succeeds. -/
def okNet : NetworkService :=
  { directSendOk := fun _ _ _ => true, rpcDispatchOk := fun _ _ => true }

/-- A peer table mapping address 7 to the peer with node id 5. -/
def peersOne : List (H256 × Peer) := [(peerHash 7, { id := 5 })]

/-- A sender whose transport rejects every hand-off; address 7 resolves to
node id 5. -/
def failSender : ConsensusNetworkSender :=
  { network := failNet,
    protocol_handler := { peers := peersOne, network_task := { queueAlive := true } } }

/-- A sender whose transport accepts every hand-off; address 7 resolves to
node id 5. -/
def okSender : ConsensusNetworkSender :=
  { network := okNet,
    protocol_handler := { peers := peersOne, network_task := { queueAlive := true } } }

/-- A sender with an empty peer table. -/
def emptySender : ConsensusNetworkSender :=
  { network := okNet,
    protocol_handler := { peers := [], network_task := { queueAlive := true } } }

/-! Theorems. -/

/-- One step of `send_to_many` produces exactly the events of `send_to` on
the head recipient followed by the events of the remaining recipients: the
loop body is the body of `send_to`. -/
theorem send_to_many_cons (s : ConsensusNetworkSender) (head : PeerId)
    (tail : List PeerId) (m : Message) :
    (send_to_many s (head :: tail) m).2.1 =
      (send_to s head m).2.1 ++ (send_to_many s tail m).2.1 := by
  cases h : peersGet s.protocol_handler.peers (peerHash head) <;>
    simp [send_to_many, send_to, h]

/-- Every hand-off event produced by `send_message_with_peer_id` is tagged
with `HSB_PROTOCOL_ID`. -/
theorem handoff_protocol_of_send_message (s : ConsensusNetworkSender)
    (pid0 : NodeId) (m : Message) (p : ProtocolId) (pid : NodeId) (ok : Bool)
    (hmem : Event.handoff p pid ok ∈ send_message_with_peer_id s pid0 m) :
    p = HSB_PROTOCOL_ID := by
  unfold send_message_with_peer_id at hmem
  split at hmem <;> simp at hmem <;> exact hmem.1

/-- Every hand-off event produced by `send_to` is tagged with
`HSB_PROTOCOL_ID`. -/
theorem handoff_protocol_of_send_to (s : ConsensusNetworkSender) (r : PeerId)
    (m : Message) (p : ProtocolId) (pid : NodeId) (ok : Bool)
    (hmem : Event.handoff p pid ok ∈ (send_to s r m).2.1) :
    p = HSB_PROTOCOL_ID := by
  cases h : peersGet s.protocol_handler.peers (peerHash r) <;>
    simp [send_to, h] at hmem
  exact handoff_protocol_of_send_message s _ m p pid ok hmem

/-- An `Except` value is a success exactly when it is not an error. -/
theorem except_ok_iff_not_error (x : Except RpcError RpcResponse) :
    (∃ v, x = Except.ok v) ↔ ¬∃ e, x = Except.error e := by
  cases x <;> simp

/-- C1 counterexample: at a sender whose transport rejects every hand-off,
for a recipient that resolves to a live peer handle, the hand-off itself
fails (a failed hand-off event and the warning diagnostic are recorded), and
yet `send_to` returns success — not the network error the claim states. -/
theorem send_to_handoff_failure_still_ok :
    (send_to failSender 7 3).1 = Except.ok () ∧
    (send_to failSender 7 3).2.1 =
      [Event.lookup (peerHash 7) true,
        Event.handoff HSB_PROTOCOL_ID 5 false, Event.warnLog] :=
  ⟨rfl, rfl⟩

/-- C1 (amended): for every recipient that resolves to a live peer handle,
`send_to` attempts the hand-off and returns success whether or not the
transport accepts it; a hand-off failure is only recorded as a warning
diagnostic, never returned to the caller as a network error. -/
theorem send_to_resolved_always_ok (s : ConsensusNetworkSender) (r : PeerId)
    (m : Message) :
    (send_to s r m).1 = Except.ok () ∧
    (∀ peer, peersGet s.protocol_handler.peers (peerHash r) = some peer →
      (send_to s r m).2.1 =
        Event.lookup (peerHash r) true ::
          send_message_with_peer_id s peer.get_id m) ∧
    (∀ peer, peersGet s.protocol_handler.peers (peerHash r) = some peer →
      s.network.directSendOk HSB_PROTOCOL_ID peer.get_id m = false →
      Event.handoff HSB_PROTOCOL_ID peer.get_id false ∈ (send_to s r m).2.1 ∧
      Event.warnLog ∈ (send_to s r m).2.1) := by
  refine ⟨?_, ?_, ?_⟩
  · cases h : peersGet s.protocol_handler.peers (peerHash r) <;> simp [send_to, h]
  · intro peer hp
    simp [send_to, hp]
  · intro peer hp hfail
    simp [send_to, hp, send_message_with_peer_id, hfail]

/-- C2: every call to `send_rpc` observes exactly one terminal outcome — a
typed response or an error, never both and never neither; and when the
request-manager collaborator abandons the completion slot without fulfilling
it (drops it), the caller observes an error (`canceled`, or `sendRpcFailed`
when the hand-off already failed) rather than staying suspended forever. -/
theorem send_rpc_exactly_one_outcome (s : ConsensusNetworkSender)
    (r : Option NodeId) :
    (∀ o, (∃ v, (send_rpc s r o).1 = Except.ok v) ↔
      ¬∃ e, (send_rpc s r o).1 = Except.error e) ∧
    ((send_rpc s r SlotOutcome.dropped).1 = Except.error RpcError.canceled ∨
      (send_rpc s r SlotOutcome.dropped).1 = Except.error RpcError.sendRpcFailed) := by
  constructor
  · intro o
    exact except_ok_iff_not_error _
  · unfold send_rpc
    split <;> simp [awaitSlot]

/-- C3: for every address with no resolvable peer handle, `send_to` returns
success and performs no transport hand-off: the only event is the failed
lookup, so in particular no hand-off event occurs. -/
theorem send_to_unresolved_ok_no_handoff (s : ConsensusNetworkSender)
    (r : PeerId) (m : Message)
    (h : peersGet s.protocol_handler.peers (peerHash r) = none) :
    (send_to s r m).1 = Except.ok () ∧
    (send_to s r m).2.1 = [Event.lookup (peerHash r) false] ∧
    ∀ p pid ok, Event.handoff p pid ok ∉ (send_to s r m).2.1 := by
  refine ⟨?_, ?_, ?_⟩ <;> simp [send_to, h]

/-- C3 witness: the concrete sender with an empty peer table. -/
theorem send_to_unresolved_ok_no_handoff_witness :
    (send_to emptySender 7 3).1 = Except.ok () ∧
    (send_to emptySender 7 3).2.1 = [Event.lookup (peerHash 7) false] ∧
    ∀ p pid ok, Event.handoff p pid ok ∉ (send_to emptySender 7 3).2.1 :=
  send_to_unresolved_ok_no_handoff emptySender 7 3 rfl

/-- C4: `send_to_many` is `send_to` applied to each recipient independently:
the overall result is success, its event trace is the concatenation of each
recipient's own `send_to` trace (so no recipient's resolution miss or
hand-off failure affects any other, and no per-recipient failure reaches the
return value), and every recipient that resolves to a peer handle receives a
hand-off attempt. -/
theorem send_to_many_independent (s : ConsensusNetworkSender)
    (recipients : List PeerId) (m : Message) :
    (send_to_many s recipients m).1 = Except.ok () ∧
    (send_to_many s recipients m).2.1 =
      recipients.flatMap (fun r => (send_to s r m).2.1) ∧
    (∀ r ∈ recipients, ∀ peer,
      peersGet s.protocol_handler.peers (peerHash r) = some peer →
      ∃ ok, Event.handoff HSB_PROTOCOL_ID peer.get_id ok ∈
        (send_to_many s recipients m).2.1) := by
  induction recipients with
  | nil =>
    refine ⟨rfl, rfl, ?_⟩
    intro r hr
    simp at hr
  | cons head tail ih =>
    refine ⟨rfl, ?_, ?_⟩
    · rw [send_to_many_cons, ih.2.1, List.flatMap_cons]
    · intro r hr peer hp
      rcases List.mem_cons.mp hr with heq | htail
      · subst heq
        cases hd : s.network.directSendOk HSB_PROTOCOL_ID peer.get_id m
        · refine ⟨false, ?_⟩
          rw [send_to_many_cons, List.mem_append]
          left
          simp [send_to, hp, send_message_with_peer_id, hd]
        · refine ⟨true, ?_⟩
          rw [send_to_many_cons, List.mem_append]
          left
          simp [send_to, hp, send_message_with_peer_id, hd]
      · obtain ⟨ok, hok⟩ := ih.2.2 r htail peer hp
        refine ⟨ok, ?_⟩
        rw [send_to_many_cons, List.mem_append]
        exact Or.inr hok

/-- C5: when the hand-off of the RPC request to the request-manager
collaborator fails, `send_rpc` fails immediately with the network error
`sendRpcFailed`, whatever the completion slot's eventual fate would have
been — so the caller never suspends on the slot and the slot never delivers
a response to it — and no RPC issue event occurs. -/
theorem send_rpc_handoff_failure_immediate (s : ConsensusNetworkSender)
    (r : Option NodeId)
    (h : s.network.rpcDispatchOk HSB_PROTOCOL_ID r = false) :
    (∀ o, (send_rpc s r o).1 = Except.error RpcError.sendRpcFailed) ∧
    (∀ o, (send_rpc s r o).2.1 = []) := by
  refine ⟨fun o => ?_, fun o => ?_⟩ <;> simp [send_rpc, h]

/-- C5 witness: the concrete sender whose transport rejects every hand-off. -/
theorem send_rpc_handoff_failure_immediate_witness :
    (∀ o, (send_rpc failSender (some 5) o).1 =
      Except.error RpcError.sendRpcFailed) ∧
    (∀ o, (send_rpc failSender (some 5) o).2.1 = []) :=
  send_rpc_handoff_failure_immediate failSender (some 5) rfl

/-- C6: `send_self_msg` enqueues the envelope under the key
`(author, discriminant msg)`, performs no peer-table lookup, no transport
hand-off and no RPC issue, and returns a delivery error exactly when the
loopback queue has been torn down; when the queue is up it succeeds and
enqueues exactly once. -/
theorem send_self_msg_loopback (s : ConsensusNetworkSender)
    (a : AccountAddress) (m : ConsensusMsg) :
    ((send_self_msg s a m).1 = Except.ok () ↔
      s.protocol_handler.network_task.queueAlive = true) ∧
    ((send_self_msg s a m).1 = Except.error PushError.queueClosed ↔
      s.protocol_handler.network_task.queueAlive = false) ∧
    (s.protocol_handler.network_task.queueAlive = true →
      (send_self_msg s a m).2.1 = [Event.enqueue (a, discriminant m) a m]) ∧
    (∀ h found, Event.lookup h found ∉ (send_self_msg s a m).2.1) ∧
    (∀ p pid ok, Event.handoff p pid ok ∉ (send_self_msg s a m).2.1) ∧
    (∀ p rr, Event.rpcIssue p rr ∉ (send_self_msg s a m).2.1) := by
  cases hq : s.protocol_handler.network_task.queueAlive <;>
    simp [send_self_msg, queuePush, hq]

/-- C7 counterexample: a direct send and an RPC issued on the same sender are
both handed off under the single protocol identifier `HSB_PROTOCOL_ID` — the
two kinds of traffic are not issued under two distinct protocol channels. -/
theorem direct_and_rpc_same_protocol :
    Event.handoff HSB_PROTOCOL_ID 5 true ∈ (send_to okSender 7 3).2.1 ∧
    Event.rpcIssue HSB_PROTOCOL_ID (some 5) ∈
      (send_rpc okSender (some 5) (SlotOutcome.fulfilled (Except.ok 0))).2.1 := by
  constructor <;> decide

/-- C7 (amended): direct sends and RPC requests are both issued under the one
shared protocol identifier `HSB_PROTOCOL_ID`: every hand-off event of
`send_to` and `send_to_many` and every RPC issue event of `send_rpc` carries
that identifier; keeping direct-send traffic apart from RPC responses is
left to the protocol handler registered behind it, not to distinct protocol
channels at this layer. -/
theorem all_sends_use_hsb_protocol (s : ConsensusNetworkSender) (r : PeerId)
    (many : List PeerId) (m : Message) (rcpt : Option NodeId) (o : SlotOutcome) :
    (∀ p pid ok, Event.handoff p pid ok ∈ (send_to s r m).2.1 →
      p = HSB_PROTOCOL_ID) ∧
    (∀ p pid ok, Event.handoff p pid ok ∈ (send_to_many s many m).2.1 →
      p = HSB_PROTOCOL_ID) ∧
    (∀ p rr, Event.rpcIssue p rr ∈ (send_rpc s rcpt o).2.1 →
      p = HSB_PROTOCOL_ID) := by
  refine ⟨?_, ?_, ?_⟩
  · intro p pid ok hmem
    exact handoff_protocol_of_send_to s r m p pid ok hmem
  · intro p pid ok hmem
    induction many with
    | nil => simp [send_to_many] at hmem
    | cons head tail ih =>
      rw [send_to_many_cons, List.mem_append] at hmem
      rcases hmem with hmem | hmem
      · exact handoff_protocol_of_send_to s head m p pid ok hmem
      · exact ih hmem
  · intro p rr hmem
    unfold send_rpc at hmem
    split at hmem <;> simp at hmem
    exact hmem.1

/-- C8: the loopback queue key is structurally derived: for a fixed address,
two envelopes of the same variant derive equal keys regardless of payload
contents, envelopes of different variants derive distinct keys, and
`send_self_msg` enqueues exactly under that derived key. -/
theorem loopback_key_structural (a : AccountAddress) (m1 m2 : ConsensusMsg) :
    (sameVariant m1 m2 = true → loopbackKey a m1 = loopbackKey a m2) ∧
    (sameVariant m1 m2 = false → loopbackKey a m1 ≠ loopbackKey a m2) ∧
    (∀ s : ConsensusNetworkSender,
      s.protocol_handler.network_task.queueAlive = true →
      (send_self_msg s a m1).2.1 = [Event.enqueue (loopbackKey a m1) a m1]) := by
  refine ⟨?_, ?_, ?_⟩
  · cases m1 <;> cases m2 <;> simp [sameVariant, loopbackKey, discriminant]
  · cases m1 <;> cases m2 <;> simp [sameVariant, loopbackKey, discriminant]
  · intro s hq
    simp [send_self_msg, queuePush, hq, loopbackKey]

/-- C9: no sender operation writes the peer table or any other component of
the sender's state: every operation returns the state it was given,
unchanged; in particular the `protocol_handler.peers` table after `send_to`
is the input table. -/
theorem sender_state_unchanged (s : ConsensusNetworkSender) (r : PeerId)
    (many : List PeerId) (m : Message) (rcpt : Option NodeId) (o : SlotOutcome)
    (a : AccountAddress) (cm : ConsensusMsg) :
    (send_to s r m).2.2 = s ∧
    (send_to_many s many m).2.2 = s ∧
    (send_rpc s rcpt o).2.2 = s ∧
    (send_self_msg s a cm).2.2 = s ∧
    (send_to s r m).2.2.protocol_handler.peers = s.protocol_handler.peers := by
  refine ⟨?_, ?_, ?_, ?_, ?_⟩
  · cases h : peersGet s.protocol_handler.peers (peerHash r) <;> simp [send_to, h]
  · cases many <;> simp [send_to_many]
  · unfold send_rpc
    split <;> rfl
  · rfl
  · cases h : peersGet s.protocol_handler.peers (peerHash r) <;> simp [send_to, h]

/-- C10: `send_to_many` applied to an empty recipient list returns success
and produces no events at all — no resolver lookups and no transport
hand-offs. -/
theorem send_to_many_empty_no_effect (s : ConsensusNetworkSender) (m : Message) :
    (send_to_many s [] m).1 = Except.ok () ∧ (send_to_many s [] m).2.1 = [] :=
  ⟨rfl, rfl⟩

end NetworkInterface
